import Mathlib

/-!
# Verification of the Sharesight MCP OAuth credential manager

Shallow embedding of `src/oauth.ts` (`OAuthManager`): token persistence,
authorization-code exchange, refresh, expiry policy and recovery.

Modelling conventions:
* Wall-clock time (`Date.now()`) is an explicit `now : Int` argument,
  in milliseconds, as in the source.
* The outcome of the single `fetch` to the token endpoint is an explicit
  `FetchResult` oracle argument: a successful HTTP response with a JSON
  body, a non-ok HTTP response with a status and body text, or a network
  failure in which `fetch` itself throws and no response is received.
* The persisted file `~/.sharesight-mcp/tokens.json` is modelled as a
  `FileContent`: absent, present but not valid JSON (`JSON.parse` throws),
  or present and parsed, where the parsed value is a JSON object whose
  four expected fields may each be present or missing (the source performs
  no field validation after `JSON.parse`).
* JavaScript exceptions become `Except AuthError` results; the operations
  return the manager state after the call together with the result, plus
  a count of `fetch` calls performed (and, for `getValidAccessToken`, a
  count of `refreshTokens` invocations), so that "no network call is
  made" claims are statable.
* A stored `refresh_token` that the source would hold as `undefined` is
  modelled as the empty string: the source only ever tests that field for
  truthiness (`!this.tokens?.refresh_token`, `data.refresh_token || ...`),
  for which `undefined` and `""` behave identically.
-/

namespace SharesightOAuth

/-- `AUTH_URL` constant, src/oauth.ts line 15. -/
def AUTH_URL : String := "https://api.sharesight.com/oauth2/authorize"

/-- `TOKEN_URL` constant, src/oauth.ts line 16. -/
def TOKEN_URL : String := "https://api.sharesight.com/oauth2/token"

/-- `REDIRECT_URI` constant, src/oauth.ts line 17. -/
def REDIRECT_URI : String := "urn:ietf:wg:oauth:2.0:oob"

/-- `StoredTokens` interface (src/oauth.ts lines 19-24): the in-memory /
persisted credential record, with all four fields present.
`expires_at` is an absolute time in milliseconds. -/
structure StoredTokens where
  access_token : String
  refresh_token : String
  expires_at : Int
  token_type : String
deriving Repr, DecidableEq

/-- A JSON object as produced by `JSON.parse` on the token file, with each
of the four expected fields possibly missing (`undefined`): the source
assigns the parse result to `this.tokens` without any field validation. -/
structure ParsedTokens where
  access_token : Option String
  refresh_token : Option String
  expires_at : Option Int
  token_type : Option String
deriving Repr, DecidableEq

/-- The persisted-record view of a fully populated `StoredTokens`, as
`JSON.stringify` followed by `JSON.parse` reproduces it. -/
def StoredTokens.toParsed (t : StoredTokens) : ParsedTokens :=
  ⟨some t.access_token, some t.refresh_token, some t.expires_at, some t.token_type⟩

/-- Reading a wholly-present credential record back out of a parsed JSON
object; `none` when any of the four fields is missing. -/
def ParsedTokens.toStored : ParsedTokens → Option StoredTokens
  | ⟨some a, some r, some e, some ty⟩ => some ⟨a, r, e, ty⟩
  | _ => none

/-- Content of the token file `~/.sharesight-mcp/tokens.json`. -/
inductive FileContent where
  /-- No file exists (`fs.existsSync` is false). -/
  | missing : FileContent
  /-- A file exists but `JSON.parse` throws on its contents
  (e.g. a truncated, partially-written file). -/
  | invalid : String → FileContent
  /-- A file exists and `JSON.parse` succeeds, yielding an object whose
  expected fields may each be present or missing. -/
  | parsed : ParsedTokens → FileContent
deriving Repr, DecidableEq

/-- `TokenResponse` interface (src/oauth.ts lines 26-31), the JSON body of
a successful token-endpoint response. `refresh_token` is optional: on a
refresh the server may omit it (rotation is optional). `expires_in` is a
lifetime in seconds. -/
structure TokenResponse where
  access_token : String
  refresh_token : Option String
  expires_in : Int
  token_type : String
deriving Repr, DecidableEq

/-- Outcome of the `fetch` call to the token endpoint. -/
inductive FetchResult where
  /-- `response.ok` is true and the body parses as a `TokenResponse`. -/
  | success : TokenResponse → FetchResult
  /-- `response.ok` is false: HTTP `status` with body text. -/
  | httpError : Nat → String → FetchResult
  /-- `fetch` itself rejects (timeout, connection reset): no response. -/
  | networkError : String → FetchResult
deriving Repr, DecidableEq

/-- The errors thrown by `OAuthManager` (the source throws `Error`s with
these distinct messages), plus the propagated `fetch` rejection. -/
inductive AuthError where
  /-- "Not authorized. Please run authorization flow first." (line 165) -/
  | notAuthorized : AuthError
  /-- "No refresh token available" (line 118) -/
  | noRefreshToken : AuthError
  /-- "Token exchange failed (status): body" (line 103) -/
  | exchangeFailed : Nat → String → AuthError
  /-- "Token refresh failed (status): body. Please re-authorize." (line 140) -/
  | refreshRejected : Nat → String → AuthError
  /-- The error with which `fetch` itself rejected, propagated unwrapped. -/
  | networkError : String → AuthError
deriving Repr, DecidableEq

/-- The message carried by each thrown error, as in the source. -/
def AuthError.message : AuthError → String
  | .notAuthorized => "Not authorized. Please run authorization flow first."
  | .noRefreshToken => "No refresh token available"
  | .exchangeFailed status body =>
      "Token exchange failed (" ++ toString status ++ "): " ++ body
  | .refreshRejected status body =>
      "Token refresh failed (" ++ toString status ++ "): " ++ body ++ ". Please re-authorize."
  | .networkError msg => msg

/-- The state owned by an `OAuthManager` instance (src/oauth.ts lines
38-42) together with the token file it persists to. -/
structure MgrState where
  clientId : String
  clientSecret : String
  /-- `this.tokens` (line 42). -/
  tokens : Option StoredTokens
  /-- Content of `this.tokensPath`. -/
  file : FileContent
deriving Repr, DecidableEq

/-- JavaScript `a || b` where `a` is an optional string field:
`undefined` and `""` are falsy. -/
def jsOr (a : Option String) (b : String) : String :=
  match a with
  | some s => if s = "" then b else s
  | none => b

/-- `loadTokens()` (src/oauth.ts lines 57-66): the tokens read from the
file at construction (where `this.tokens` starts as `null`). A missing
file or a `JSON.parse` failure yields no record and raises nothing; a
successful parse is assigned to `this.tokens` without field validation. -/
def loadTokens : FileContent → Option ParsedTokens
  | .missing => none
  | .invalid _ => none
  | .parsed v => some v

/-- `saveTokens()` (src/oauth.ts lines 68-72): writes
`JSON.stringify(this.tokens)` to the file when tokens are present,
otherwise does nothing. -/
def saveTokens (s : MgrState) : MgrState :=
  match s.tokens with
  | some t => { s with file := .parsed t.toParsed }
  | none => s

/-- `hasValidTokens()` (src/oauth.ts lines 153-155):
`this.tokens !== null`, a pure presence check on the record. -/
def hasValidTokens (tokens : Option α) : Bool :=
  tokens.isSome

/-- `isTokenExpired()` (src/oauth.ts lines 157-161): true when no record
exists or `Date.now() >= this.tokens.expires_at`. -/
def isTokenExpired (tokens : Option StoredTokens) (now : Int) : Bool :=
  match tokens with
  | none => true
  | some t => decide (t.expires_at ≤ now)

/-- Result of a `Promise<void>` operation: the manager state after the
call, the normal/thrown outcome, and how many `fetch` calls were made. -/
structure OpOutput where
  state : MgrState
  result : Except AuthError Unit
  fetchCalls : Nat
deriving Repr

/-- Result of `getValidAccessToken()`: state afterwards, returned token
string or thrown error, number of `refreshTokens()` invocations and
number of `fetch` calls made. -/
structure TokenOutput where
  state : MgrState
  result : Except AuthError String
  refreshCalls : Nat
  fetchCalls : Nat
deriving Repr

/-- `getAuthorizationUrl()` body helper: serialization of one byte by
`URLSearchParams.toString()` (application/x-www-form-urlencoded):
ASCII alphanumerics and `*-._` unescaped, space as `+`, every other byte
percent-encoded in uppercase hex. -/
def formEncodeByte (b : Nat) : String :=
  if (48 ≤ b ∧ b ≤ 57) ∨ (65 ≤ b ∧ b ≤ 90) ∨ (97 ≤ b ∧ b ≤ 122) ∨
     b = 42 ∨ b = 45 ∨ b = 46 ∨ b = 95 then
    String.singleton (Char.ofNat b)
  else if b = 32 then "+"
  else
    let hex : Nat → Char := fun n => if n < 10 then Char.ofNat (48 + n) else Char.ofNat (55 + n)
    String.mk ['%', hex (b / 16), hex (b % 16)]

/-- UTF-8 encoding of one character, as byte values. -/
def utf8Bytes (c : Char) : List Nat :=
  let n := c.toNat
  if n < 0x80 then [n]
  else if n < 0x800 then
    [0xC0 + n / 0x40, 0x80 + n % 0x40]
  else if n < 0x10000 then
    [0xE0 + n / 0x1000, 0x80 + (n / 0x40) % 0x40, 0x80 + n % 0x40]
  else
    [0xF0 + n / 0x40000, 0x80 + (n / 0x1000) % 0x40, 0x80 + (n / 0x40) % 0x40, 0x80 + n % 0x40]

/-- `URLSearchParams` percent-encoding of a full string. -/
def formEncode (s : String) : String :=
  s.data.foldl (fun acc c => (utf8Bytes c).foldl (fun a b => a ++ formEncodeByte b) acc) ""

/-- `URLSearchParams({...}).toString()`: `key=value` pairs joined by `&`,
keys and values percent-encoded. -/
def serializeParams (ps : List (String × String)) : String :=
  String.intercalate "&" (ps.map (fun p => formEncode p.1 ++ "=" ++ formEncode p.2))

/-- `getAuthorizationUrl()` (src/oauth.ts lines 74-82): pure construction
of the authorization URL from the three fixed parameters. -/
def getAuthorizationUrl (s : MgrState) : String :=
  AUTH_URL ++ "?" ++ serializeParams
    [("response_type", "code"), ("client_id", s.clientId), ("redirect_uri", REDIRECT_URI)]

/-- `exchangeCodeForTokens(code)` (src/oauth.ts lines 84-114). One `fetch`
to the token endpoint; the request body (`grant_type=authorization_code`,
`code`, `redirect_uri`, client credentials) is elided as no state depends
on it. On a non-ok response, throws `exchangeFailed` with the status and
body and changes nothing. On success, installs the new record (computing
`expires_at = Date.now() + expires_in * 1000 - 60000`, the one-minute
buffer of line 110) and persists it. A `fetch` rejection propagates
before any mutation. -/
def exchangeCodeForTokens (s : MgrState) (code : String) (now : Int)
    (net : FetchResult) : OpOutput :=
  match net with
  | .networkError msg => ⟨s, .error (.networkError msg), 1⟩
  | .httpError status body => ⟨s, .error (.exchangeFailed status body), 1⟩
  | .success data =>
      let t : StoredTokens :=
        { access_token := data.access_token
          refresh_token := (data.refresh_token).getD ""
          expires_at := now + data.expires_in * 1000 - 60000
          token_type := data.token_type }
      ⟨saveTokens { s with tokens := some t }, .ok (), 1⟩

/-- `refreshTokens()` (src/oauth.ts lines 116-151). Throws
`noRefreshToken` without any network call when `this.tokens?.refresh_token`
is falsy (no record, or an empty refresh token). Otherwise one `fetch`:
on a non-ok response, clears `this.tokens`, removes the token file and
throws `refreshRejected`; on success installs the new record, keeping the
previous refresh token when the response omits one
(`data.refresh_token || this.tokens.refresh_token`, line 146), and
persists it. A `fetch` rejection propagates before any mutation. -/
def refreshTokens (s : MgrState) (now : Int) (net : FetchResult) : OpOutput :=
  match s.tokens with
  | none => ⟨s, .error .noRefreshToken, 0⟩
  | some prev =>
      if prev.refresh_token = "" then ⟨s, .error .noRefreshToken, 0⟩
      else
        match net with
        | .networkError msg => ⟨s, .error (.networkError msg), 1⟩
        | .httpError status body =>
            ⟨{ s with tokens := none, file := .missing },
             .error (.refreshRejected status body), 1⟩
        | .success data =>
            let t : StoredTokens :=
              { access_token := data.access_token
                refresh_token := jsOr data.refresh_token prev.refresh_token
                expires_at := now + data.expires_in * 1000 - 60000
                token_type := data.token_type }
            ⟨saveTokens { s with tokens := some t }, .ok (), 1⟩

/-- `getValidAccessToken()` (src/oauth.ts lines 163-173). Throws
`notAuthorized` when no record exists; refreshes first when the record is
expired, propagating any error from `refreshTokens()`; returns
`this.tokens.access_token` as left by the (possible) refresh. -/
def getValidAccessToken (s : MgrState) (now : Int) (net : FetchResult) : TokenOutput :=
  match s.tokens with
  | none => ⟨s, .error .notAuthorized, 0, 0⟩
  | some t =>
      if isTokenExpired s.tokens now then
        let r := refreshTokens s now net
        match r.result with
        | .error e => ⟨r.state, .error e, 1, r.fetchCalls⟩
        | .ok _ =>
            match r.state.tokens with
            | some t2 => ⟨r.state, .ok t2.access_token, 1, r.fetchCalls⟩
            | none =>
                -- unreachable: a successful refresh always installs a record
                ⟨r.state, .error .notAuthorized, 1, r.fetchCalls⟩
      else ⟨s, .ok t.access_token, 0, 0⟩

/-! ## Helper lemmas -/

/-- String concatenation is associative. -/
theorem string_append_assoc (a b c : String) : a ++ b ++ c = a ++ (b ++ c) := by
  apply String.ext
  simp

/-! ## Claims -/

/-- C2: a refresh attempt that receives a non-success HTTP status destroys
the persisted record (file removed), clears the in-memory record, surfaces
a `refreshRejected` error with that status and body, and afterwards
`hasValidTokens` returns false. -/
theorem claim2_refresh_rejection_destroys_state (s : MgrState) (now : Int)
    (status : Nat) (body : String) (t : StoredTokens)
    (h : s.tokens = some t) (hr : t.refresh_token ≠ "") :
    (refreshTokens s now (.httpError status body)).state.tokens = none ∧
    (refreshTokens s now (.httpError status body)).state.file = .missing ∧
    (refreshTokens s now (.httpError status body)).result =
      .error (.refreshRejected status body) ∧
    hasValidTokens (refreshTokens s now (.httpError status body)).state.tokens = false := by
  simp [refreshTokens, h, hr, hasValidTokens]

theorem claim2_witness :
    (refreshTokens ⟨"id", "secret", some ⟨"A1", "R1", 1000, "Bearer"⟩,
        .parsed ⟨some "A1", some "R1", some 1000, some "Bearer"⟩⟩ 2000
      (.httpError 400 "invalid_grant")).state.tokens = none ∧
    (refreshTokens ⟨"id", "secret", some ⟨"A1", "R1", 1000, "Bearer"⟩,
        .parsed ⟨some "A1", some "R1", some 1000, some "Bearer"⟩⟩ 2000
      (.httpError 400 "invalid_grant")).state.file = .missing := by
  have h := claim2_refresh_rejection_destroys_state
    ⟨"id", "secret", some ⟨"A1", "R1", 1000, "Bearer"⟩,
      .parsed ⟨some "A1", some "R1", some 1000, some "Bearer"⟩⟩ 2000
    400 "invalid_grant" ⟨"A1", "R1", 1000, "Bearer"⟩ rfl (by decide)
  exact ⟨h.1, h.2.1⟩

/-- C3: every successful exchange and every successful refresh with
response `expires_in = N` seconds at instant `now` stores
`expires_at = now + N * 1000 - 60000` milliseconds, which is at most
`now + N * 1000 - 60000` and at least `now + N * 1000 - 61000` (the exact
fixed 60-second margin). -/
theorem claim3_expiry_margin (s : MgrState) (code : String) (now : Int)
    (data : TokenResponse) :
    (∃ t', (exchangeCodeForTokens s code now (.success data)).state.tokens = some t' ∧
      t'.expires_at = now + data.expires_in * 1000 - 60000 ∧
      t'.expires_at ≤ now + data.expires_in * 1000 - 60000 ∧
      now + data.expires_in * 1000 - 61000 ≤ t'.expires_at) ∧
    (∀ t, s.tokens = some t → t.refresh_token ≠ "" →
      ∃ t', (refreshTokens s now (.success data)).state.tokens = some t' ∧
        t'.expires_at = now + data.expires_in * 1000 - 60000 ∧
        t'.expires_at ≤ now + data.expires_in * 1000 - 60000 ∧
        now + data.expires_in * 1000 - 61000 ≤ t'.expires_at) := by
  constructor
  · refine ⟨⟨data.access_token, (data.refresh_token).getD "",
      now + data.expires_in * 1000 - 60000, data.token_type⟩,
      ?_, rfl, le_refl _, ?_⟩
    · simp [exchangeCodeForTokens, saveTokens]
    · show now + data.expires_in * 1000 - 61000 ≤ now + data.expires_in * 1000 - 60000
      omega
  · intro t h hr
    refine ⟨⟨data.access_token, jsOr data.refresh_token t.refresh_token,
      now + data.expires_in * 1000 - 60000, data.token_type⟩,
      ?_, rfl, le_refl _, ?_⟩
    · simp [refreshTokens, h, hr, saveTokens]
    · show now + data.expires_in * 1000 - 61000 ≤ now + data.expires_in * 1000 - 60000
      omega

theorem claim3_witness :
    ∃ t', (refreshTokens ⟨"id", "secret", some ⟨"A1", "R1", 0, "Bearer"⟩, .missing⟩ 0
      (.success ⟨"A2", some "R2", 3600, "Bearer"⟩)).state.tokens = some t' ∧
      t'.expires_at = 0 + 3600 * 1000 - 60000 ∧
      t'.expires_at ≤ 0 + 3600 * 1000 - 60000 ∧
      0 + 3600 * 1000 - 61000 ≤ t'.expires_at :=
  (claim3_expiry_margin ⟨"id", "secret", some ⟨"A1", "R1", 0, "Bearer"⟩, .missing⟩
    "c0" 0 ⟨"A2", some "R2", 3600, "Bearer"⟩).2
    ⟨"A1", "R1", 0, "Bearer"⟩ rfl (by decide)

/-- C5 as stated is false: a file whose content is valid JSON but lacks
some of the four fields (here only `access_token` is present) is loaded as
a record, `hasValidTokens` then reports true, even though the record is
not wholly present (`toStored` fails on it). -/
theorem claim5_counterexample :
    loadTokens (.parsed ⟨some "A1", none, none, none⟩) =
      some ⟨some "A1", none, none, none⟩ ∧
    hasValidTokens (loadTokens (.parsed ⟨some "A1", none, none, none⟩)) = true ∧
    ParsedTokens.toStored ⟨some "A1", none, none, none⟩ = none :=
  ⟨rfl, rfl, rfl⟩

/-- C5 amended: `load()` yields "no record" for an absent file and for a
file `JSON.parse` rejects, never raising; but any successfully parsed
content is installed as the record without field validation, so a
partial-field record is treated as a present credential record. -/
theorem claim5_amended_load (raw : String) (v : ParsedTokens) :
    loadTokens .missing = none ∧
    loadTokens (.invalid raw) = none ∧
    hasValidTokens (loadTokens .missing) = false ∧
    hasValidTokens (loadTokens (.invalid raw)) = false ∧
    loadTokens (.parsed v) = some v ∧
    hasValidTokens (loadTokens (.parsed v)) = true :=
  ⟨rfl, rfl, rfl, rfl, rfl, rfl⟩

/-- C6: an authorization-code exchange that receives a non-success HTTP
status fails with `exchangeFailed` carrying the server status and body,
and the whole manager state — in-memory record and persisted file — is
unchanged (nothing persisted; an Unauthorized manager stays Unauthorized). -/
theorem claim6_exchange_rejection (s : MgrState) (code : String) (now : Int)
    (status : Nat) (body : String) :
    (exchangeCodeForTokens s code now (.httpError status body)).result =
      .error (.exchangeFailed status body) ∧
    (exchangeCodeForTokens s code now (.httpError status body)).state = s ∧
    (exchangeCodeForTokens s code now (.httpError status body)).state.tokens = s.tokens ∧
    (exchangeCodeForTokens s code now (.httpError status body)).state.file = s.file := by
  simp [exchangeCodeForTokens]

/-- C7: a transient network failure (the request itself fails, no
response) during exchange or refresh surfaces the propagated fetch error
as a `networkError`, a constructor distinct from the server-rejection
errors, and leaves both the in-memory record and the persisted file
unchanged. -/
theorem claim7_network_failure_preserves_state (s : MgrState) (code : String)
    (now : Int) (msg : String) :
    ((exchangeCodeForTokens s code now (.networkError msg)).result =
        .error (.networkError msg) ∧
      (exchangeCodeForTokens s code now (.networkError msg)).state = s) ∧
    (∀ t, s.tokens = some t → t.refresh_token ≠ "" →
      (refreshTokens s now (.networkError msg)).result = .error (.networkError msg) ∧
      (refreshTokens s now (.networkError msg)).state = s) ∧
    (∀ status body, AuthError.networkError msg ≠ .refreshRejected status body ∧
      AuthError.networkError msg ≠ .exchangeFailed status body) := by
  refine ⟨⟨by simp [exchangeCodeForTokens], by simp [exchangeCodeForTokens]⟩, ?_, ?_⟩
  · intro t h hr
    constructor <;> simp [refreshTokens, h, hr]
  · intro status body
    constructor <;> simp

theorem claim7_witness :
    (refreshTokens ⟨"id", "secret", some ⟨"A1", "R1", 0, "Bearer"⟩, .missing⟩ 50
      (.networkError "ETIMEDOUT")).state =
      ⟨"id", "secret", some ⟨"A1", "R1", 0, "Bearer"⟩, .missing⟩ :=
  ((claim7_network_failure_preserves_state
    ⟨"id", "secret", some ⟨"A1", "R1", 0, "Bearer"⟩, .missing⟩ "c0" 50
    "ETIMEDOUT").2.1 ⟨"A1", "R1", 0, "Bearer"⟩ rfl (by decide)).2

/-- C8: saving a well-formed record and loading it back yields a record
deep-equal to the original: the file holds exactly the record's four
fields, and reading them back reconstructs the record. -/
theorem claim8_save_load_roundtrip (cid csec : String) (t : StoredTokens)
    (f : FileContent) :
    loadTokens (saveTokens ⟨cid, csec, some t, f⟩).file = some t.toParsed ∧
    ParsedTokens.toStored t.toParsed = some t ∧
    t.toParsed.access_token = some t.access_token ∧
    t.toParsed.refresh_token = some t.refresh_token ∧
    t.toParsed.expires_at = some t.expires_at ∧
    t.toParsed.token_type = some t.token_type := by
  refine ⟨by simp [saveTokens, loadTokens], ?_, rfl, rfl, rfl, rfl⟩
  cases t
  rfl

/-- C10: `refreshTokens()` fails with the `noRefreshToken` error (message
"No refresh token available") both when no record exists and when the
record's `refresh_token` is the empty string (the guard tests truthiness,
not record presence); in both cases no fetch happens and the state is
unchanged. -/
theorem claim10_refresh_guard_truthiness (s : MgrState) (now : Int)
    (net : FetchResult) :
    (s.tokens = none →
      (refreshTokens s now net).result = .error .noRefreshToken ∧
      (refreshTokens s now net).state = s ∧
      (refreshTokens s now net).fetchCalls = 0) ∧
    (∀ t, s.tokens = some t → t.refresh_token = "" →
      (refreshTokens s now net).result = .error .noRefreshToken ∧
      (refreshTokens s now net).state = s ∧
      (refreshTokens s now net).fetchCalls = 0) ∧
    AuthError.noRefreshToken.message = "No refresh token available" := by
  refine ⟨?_, ?_, rfl⟩
  · intro h
    refine ⟨?_, ?_, ?_⟩ <;> simp [refreshTokens, h]
  · intro t h hr
    refine ⟨?_, ?_, ?_⟩ <;> simp [refreshTokens, h, hr]

theorem claim10_witness :
    (refreshTokens ⟨"id", "secret", some ⟨"A1", "", 0, "Bearer"⟩, .missing⟩ 50
      (.success ⟨"A2", some "R2", 3600, "Bearer"⟩)).result =
      .error .noRefreshToken ∧
    (refreshTokens ⟨"id", "secret", some ⟨"A1", "", 0, "Bearer"⟩, .missing⟩ 50
      (.success ⟨"A2", some "R2", 3600, "Bearer"⟩)).fetchCalls = 0 ∧
    (refreshTokens ⟨"id", "secret", none, .missing⟩ 50
      (.success ⟨"A2", some "R2", 3600, "Bearer"⟩)).result =
      .error .noRefreshToken := by
  have h1 := (claim10_refresh_guard_truthiness
    ⟨"id", "secret", some ⟨"A1", "", 0, "Bearer"⟩, .missing⟩ 50
    (.success ⟨"A2", some "R2", 3600, "Bearer"⟩)).2.1 ⟨"A1", "", 0, "Bearer"⟩ rfl rfl
  have h2 := (claim10_refresh_guard_truthiness
    ⟨"id", "secret", none, .missing⟩ 50
    (.success ⟨"A2", some "R2", 3600, "Bearer"⟩)).1 rfl
  exact ⟨h1.1, h1.2.2, h2.1⟩

/-- C1: `getValidAccessToken()` fails with the `notAuthorized` error and
performs no network call when no record exists; on a record whose
`expires_at` is in the past (`expires_at ≤ now`) it invokes
`refreshTokens()` exactly once before returning and propagates any error
from that call; on a record whose `expires_at` is in the future it
performs zero refresh and zero fetch calls, returns the stored access
token unchanged and leaves the state unchanged. -/
theorem claim1_get_valid_access_token (s : MgrState) (now : Int) (net : FetchResult) :
    (s.tokens = none →
      (getValidAccessToken s now net).result = .error .notAuthorized ∧
      (getValidAccessToken s now net).refreshCalls = 0 ∧
      (getValidAccessToken s now net).fetchCalls = 0) ∧
    (∀ t, s.tokens = some t → t.expires_at ≤ now →
      (getValidAccessToken s now net).refreshCalls = 1 ∧
      (∀ e, (refreshTokens s now net).result = .error e →
        (getValidAccessToken s now net).result = .error e)) ∧
    (∀ t, s.tokens = some t → now < t.expires_at →
      (getValidAccessToken s now net).refreshCalls = 0 ∧
      (getValidAccessToken s now net).fetchCalls = 0 ∧
      (getValidAccessToken s now net).result = .ok t.access_token ∧
      (getValidAccessToken s now net).state = s) := by
  refine ⟨?_, ?_, ?_⟩
  · intro h
    refine ⟨?_, ?_, ?_⟩ <;> simp [getValidAccessToken, h]
  · intro t h hexp
    have hexp' : isTokenExpired (some t) now = true := by
      simp [isTokenExpired, hexp]
    constructor
    · rcases hres : (refreshTokens s now net).result with e | u
      · simp [getValidAccessToken, h, hexp', hres]
      · rcases hst : (refreshTokens s now net).state.tokens with _ | t2 <;>
          simp [getValidAccessToken, h, hexp', hres, hst]
    · intro e he
      simp [getValidAccessToken, h, hexp', he]
  · intro t h hfut
    have hexp' : isTokenExpired (some t) now = false := by
      simp [isTokenExpired]
      omega
    refine ⟨?_, ?_, ?_, ?_⟩ <;> simp [getValidAccessToken, h, hexp']

theorem claim1_witness :
    (getValidAccessToken ⟨"id", "secret", none, .missing⟩ 0 (.httpError 401 "x")).result
      = .error .notAuthorized ∧
    (getValidAccessToken ⟨"id", "secret", some ⟨"A1", "R1", 100, "Bearer"⟩, .missing⟩ 100
      (.httpError 401 "x")).result = .error (.refreshRejected 401 "x") ∧
    (getValidAccessToken ⟨"id", "secret", some ⟨"A1", "R1", 100, "Bearer"⟩, .missing⟩ 99
      (.httpError 401 "x")).result = .ok "A1" := by
  refine ⟨((claim1_get_valid_access_token _ 0 _).1 rfl).1, ?_, ?_⟩
  · exact ((claim1_get_valid_access_token _ 100 _).2.1 ⟨"A1", "R1", 100, "Bearer"⟩ rfl
      (by decide)).2 (.refreshRejected 401 "x") rfl
  · exact ((claim1_get_valid_access_token _ 99 _).2.2 ⟨"A1", "R1", 100, "Bearer"⟩ rfl
      (by decide)).2.2.1

/-- C4 as stated is false at a refresh response that includes the
`refresh_token` field with the empty string as value: the field is
present in the response, yet the stored record keeps the previous
refresh token "R1" rather than the included value, because the source's
`data.refresh_token || this.tokens.refresh_token` tests truthiness, not
field presence. -/
theorem claim4_counterexample :
    (⟨"A2", some "", 3600, "Bearer"⟩ : TokenResponse).refresh_token ≠ none ∧
    ((refreshTokens ⟨"id", "secret", some ⟨"A1", "R1", 0, "Bearer"⟩, .missing⟩ 1000
        (.success ⟨"A2", some "", 3600, "Bearer"⟩)).state.tokens).map
      StoredTokens.refresh_token = some "R1" ∧
    (some "R1" : Option String) ≠ some "" := by
  refine ⟨by simp, rfl, by decide⟩

/-- C4 amended: on a successful refresh, `access_token`, `expires_at` and
`token_type` are taken from the response and the new record is persisted;
the stored refresh token is the response's when that field is present and
non-empty, and the previously stored one when the field is omitted — or
present but the empty string, which JavaScript `||` treats like omission. -/
theorem claim4_amended_refresh_retention (s : MgrState) (now : Int)
    (data : TokenResponse) (t : StoredTokens)
    (h : s.tokens = some t) (hr : t.refresh_token ≠ "") :
    ∃ t', (refreshTokens s now (.success data)).state.tokens = some t' ∧
      (refreshTokens s now (.success data)).state.file = .parsed t'.toParsed ∧
      t'.access_token = data.access_token ∧
      t'.token_type = data.token_type ∧
      t'.expires_at = now + data.expires_in * 1000 - 60000 ∧
      t'.refresh_token = jsOr data.refresh_token t.refresh_token ∧
      (data.refresh_token = none → t'.refresh_token = t.refresh_token) ∧
      (∀ r, data.refresh_token = some r → r ≠ "" → t'.refresh_token = r) ∧
      (∀ r, data.refresh_token = some r → r = "" → t'.refresh_token = t.refresh_token) := by
  refine ⟨⟨data.access_token, jsOr data.refresh_token t.refresh_token,
    now + data.expires_in * 1000 - 60000, data.token_type⟩,
    ?_, ?_, rfl, rfl, rfl, rfl, ?_, ?_, ?_⟩
  · simp [refreshTokens, h, hr, saveTokens]
  · simp [refreshTokens, h, hr, saveTokens]
  · intro hn
    simp [jsOr, hn]
  · intro r hrr hne
    simp [jsOr, hrr, hne]
  · intro r hrr he
    simp [jsOr, hrr, he]

theorem claim4_witness :
    ((refreshTokens ⟨"id", "secret", some ⟨"A1", "R1", 0, "Bearer"⟩, .missing⟩ 1000
        (.success ⟨"A2", none, 3600, "Bearer"⟩)).state.tokens).map
      StoredTokens.refresh_token = some "R1" := by
  obtain ⟨t', h1, -, -, -, -, -, h7, -, -⟩ :=
    claim4_amended_refresh_retention
      ⟨"id", "secret", some ⟨"A1", "R1", 0, "Bearer"⟩, .missing⟩ 1000
      ⟨"A2", none, 3600, "Bearer"⟩ ⟨"A1", "R1", 0, "Bearer"⟩ rfl (by decide)
  rw [h1]
  simp [h7 rfl]

/-- C9: `getAuthorizationUrl()` is pure and deterministic — any two
manager states with the same `clientId` yield the same string — and the
returned string is exactly the authorization endpoint URL carrying
`response_type=code`, the percent-encoded client id, and the fixed
out-of-band redirect URI; by construction the function performs no
network call and mutates nothing. -/
theorem claim9_authorization_url_pure (s₁ s₂ : MgrState)
    (h : s₁.clientId = s₂.clientId) :
    getAuthorizationUrl s₁ = getAuthorizationUrl s₂ ∧
    getAuthorizationUrl s₁ =
      "https://api.sharesight.com/oauth2/authorize?response_type=code&client_id=" ++
        formEncode s₁.clientId ++ "&redirect_uri=urn%3Aietf%3Awg%3Aoauth%3A2.0%3Aoob" := by
  have key : ∀ s : MgrState, getAuthorizationUrl s =
      "https://api.sharesight.com/oauth2/authorize?response_type=code&client_id=" ++
        formEncode s.clientId ++ "&redirect_uri=urn%3Aietf%3Awg%3Aoauth%3A2.0%3Aoob" := by
    intro s
    have e1 : formEncode "response_type" = "response_type" := rfl
    have e2 : formEncode "code" = "code" := rfl
    have e3 : formEncode "client_id" = "client_id" := rfl
    have e4 : formEncode "redirect_uri" = "redirect_uri" := rfl
    have e5 : formEncode REDIRECT_URI = "urn%3Aietf%3Awg%3Aoauth%3A2.0%3Aoob" := rfl
    simp [getAuthorizationUrl, serializeParams, AUTH_URL, e1, e2, e3, e4, e5,
      String.intercalate, String.intercalate.go, string_append_assoc]
    simp [← string_append_assoc]
  exact ⟨(key s₁).trans (by rw [h]; exact (key s₂).symm), key s₁⟩

theorem claim9_witness :
    getAuthorizationUrl ⟨"my-client", "secret1", none, .missing⟩ =
      getAuthorizationUrl ⟨"my-client", "secret2", some ⟨"A1", "R1", 0, "Bearer"⟩,
        .parsed ⟨some "A1", some "R1", some 0, some "Bearer"⟩⟩ ∧
    getAuthorizationUrl ⟨"my-client", "secret1", none, .missing⟩ =
      "https://api.sharesight.com/oauth2/authorize?response_type=code&client_id=my-client&redirect_uri=urn%3Aietf%3Awg%3Aoauth%3A2.0%3Aoob" := by
  have h := claim9_authorization_url_pure ⟨"my-client", "secret1", none, .missing⟩
    ⟨"my-client", "secret2", some ⟨"A1", "R1", 0, "Bearer"⟩,
      .parsed ⟨some "A1", some "R1", some 0, some "Bearer"⟩⟩ rfl
  exact ⟨h.1, h.2.trans (by rfl)⟩

end SharesightOAuth
